import Mathlib

/-!
Verification of the openclaw-vikingfs tiered-retrieval engine.

Shallow embedding of the Python sources:
  * src/tools/summarizer.py        (VikingSummarizer)
  * src/integration/bridge_v2.py   (OpenClawVikingBridgeV2)
  * src/integration/openclaw_bridge.py (OpenClawVikingBridge, "v1")

Python strings are modelled as lists of characters (`Str`); Python floats
appearing in the engine (confidences, token estimates) are modelled as
exact rationals, which agrees with the float computations for every value
the code manipulates (one-decimal literals and small integer ratios).
-/

/-- Python strings, as lists of Unicode code points. -/
abbrev Str := List Char

/-- Embed a Lean string literal as a `Str`. -/
def str (s : String) : Str := s.toList

/-- Python `str.isspace` characters relevant to `str.strip()` (ASCII range). -/
def pyIsSpace (c : Char) : Bool :=
  c == ' ' || c == '\t' || c == '\n' || c == '\r' ||
  c == Char.ofNat 11 || c == Char.ofNat 12

/-- ASCII lower-casing of one character (Python `str.lower()` restricted to the
character repertoire used by the repository: ASCII plus CJK, the latter being
case-less). -/
def pyLowerChar (c : Char) : Char :=
  if 'A' ≤ c ∧ c ≤ 'Z' then Char.ofNat (c.toNat + 32) else c

/-- Python `str.lower()`. -/
def pyLower (s : Str) : Str := s.map pyLowerChar

/-- Python `str.strip()`: drop whitespace at both ends. -/
def stripL (s : Str) : Str :=
  ((s.dropWhile pyIsSpace).reverse.dropWhile pyIsSpace).reverse

/-- Python `str.split('\n')`. -/
def splitLines : Str → List Str
  | [] => [[]]
  | '\n' :: rest => [] :: splitLines rest
  | c :: rest =>
    match splitLines rest with
    | [] => [[c]]
    | g :: gs => (c :: g) :: gs

/-- Python `str.split('\n\n')` (non-overlapping, left to right). -/
def splitParas : Str → List Str
  | [] => [[]]
  | '\n' :: '\n' :: rest => [] :: splitParas rest
  | c :: rest =>
    match splitParas rest with
    | [] => [[c]]
    | g :: gs => (c :: g) :: gs

/-- Does `s` start with `pat`?  (Python `str.startswith`.) -/
def startsWithL : Str → Str → Bool
  | [], _ => true
  | _ :: _, [] => false
  | a :: as, b :: bs => a == b && startsWithL as bs

/-- Python `pat in s` (substring containment). -/
def occursIn (pat : Str) : Str → Bool
  | [] => pat.isEmpty
  | s@(_ :: rest) => startsWithL pat s || occursIn pat rest

/-- Python slicing `s[:n]` with an `int` bound: a negative bound counts from
the end (`s[:-k]` keeps `len s - k` characters, clamped at zero). -/
def pyTake (s : Str) (n : Int) : Str :=
  if 0 ≤ n then s.take n.toNat else s.take (s.length - (-n).toNat)

/-! ## Summarizer configuration (src/tools/summarizer.py, load_config) -/

/-- The `compression_rules` section of the summarizer configuration.  Values
are Python `int`s, hence `Int` (nothing prevents a negative value). -/
structure SummCfg where
  L0_max : Int
  L1_max : Int
  deriving DecidableEq

/-- Built-in default configuration (`L0_max_chars = 100`, `L1_max_chars = 500`). -/
def defaultSummCfg : SummCfg := ⟨100, 500⟩

/-- src/tools/summarizer.py `load_config` (lines 22-35): if the configuration
file exists its parsed content becomes `self.config` verbatim — no value is
validated; otherwise the defaults are used.  The `Except` codomain records
that the function can signal an error; the source never does for a parsed
configuration. -/
def loadConfigSummarizer : Option SummCfg → Except Unit SummCfg
  | some c => .ok c
  | none => .ok defaultSummCfg

/-! ## generate_l0_summary (src/tools/summarizer.py, lines 65-100) -/

/-- Python `line.replace('# ', '')`: remove every (left-to-right,
non-overlapping) occurrence of `"# "`. -/
def removeHashSp : Str → Str
  | '#' :: ' ' :: rest => removeHashSp rest
  | c :: rest => c :: removeHashSp rest
  | [] => []

/-- The title/first-content scan of `generate_l0_summary`.  State is the
current `title`; the loop breaks as soon as `first_content` is set (it is
only ever assigned immediately before `break`). -/
def scanL0 : List Str → Str → Str × Str
  | [], title => (title, [])
  | l :: ls, title =>
    let line := stripL l
    if line = [] then scanL0 ls title
    else
      let title1 :=
        if startsWithL (str "# ") line then stripL (removeHashSp line)
        else if title = [] ∧ line.length < 50 then line.take 50
        else title
      if 20 < line.length then (title1, line.take 100)
      else scanL0 ls title1

/-- The summary-combination step of `generate_l0_summary` (`if title and
first_content: ... else ...`), before the final truncation. -/
def l0combine (text title fc : Str) : Str :=
  if title ≠ [] ∧ fc ≠ [] then title ++ str " | " ++ fc.take 50 ++ str "..."
  else if title ≠ [] then title.take 80 ++ str "..."
  else if fc ≠ [] then fc.take 80 ++ str "..."
  else if 80 < text.length then text.take 80 ++ str "..." else text

/-- `VikingSummarizer.generate_l0_summary`. -/
def generateL0 (cfg : SummCfg) (text : Str) : Str :=
  let tf := scanL0 (splitLines (stripL text)) []
  pyTake (l0combine text tf.1 tf.2) cfg.L0_max

/-! ## extract_key_points (src/tools/summarizer.py, lines 37-63)

The five `important_patterns` regexes are applied with `re.search` and
`re.IGNORECASE` to the already-stripped line.  Each is embedded directly:
`^\s*` is realised by skipping leading whitespace, `\b` by a word-character
test on the neighbouring characters (every listed vocabulary word begins and
ends with a word character, so a boundary is exactly a non-word neighbour or
the string edge). -/

/-- Python `\w` for the repertoire in use: ASCII alphanumerics, underscore,
and CJK unified ideographs (which Python's Unicode `\w` also accepts). -/
def pyIsWordChar (c : Char) : Bool :=
  c.isAlphanum || c == '_' || (0x4E00 ≤ c.toNat && c.toNat ≤ 0x9FFF)

/-- Pattern `^\s*[-*•]\s*`  (the trailing `\s*` may be empty). -/
def matchBullet (l : Str) : Bool :=
  match l.dropWhile pyIsSpace with
  | c :: _ => c == '-' || c == '*' || c == '•'
  | [] => false

/-- Pattern `^\s*\d+\.\s*`. -/
def matchNumbered (l : Str) : Bool :=
  let l1 := l.dropWhile pyIsSpace
  let ds := l1.takeWhile Char.isDigit
  !ds.isEmpty &&
    match l1.drop ds.length with
    | '.' :: _ => true
    | _ => false

/-- Pattern `^\s*#+\s+`. -/
def matchHeading (l : Str) : Bool :=
  let l1 := l.dropWhile pyIsSpace
  let hs := l1.takeWhile (· == '#')
  !hs.isEmpty &&
    match l1.drop hs.length with
    | c :: _ => pyIsSpace c
    | [] => false

/-- Case-insensitive `startsWith` (`re.IGNORECASE`). -/
def startsWithCI : Str → Str → Bool
  | [], _ => true
  | _ :: _, [] => false
  | a :: as, b :: bs => (pyLowerChar a == pyLowerChar b) && startsWithCI as bs

/-- `\b` after a match: end of string or a non-word character. -/
def notWordEnd : Str → Bool
  | [] => true
  | c :: _ => !pyIsWordChar c

/-- `\b` before a match: start of string or a non-word previous character. -/
def boundaryB : Option Char → Bool
  | none => true
  | some c => !pyIsWordChar c

/-- `re.search(r'\bW\b', s, re.IGNORECASE)` for a single word `w`, scanning
with the previous character threaded for the left boundary test. -/
def wbOccursAux (w : Str) : Option Char → Str → Bool
  | prev, [] => boundaryB prev && startsWithCI w [] && notWordEnd []
  | prev, c :: rest =>
    (boundaryB prev && startsWithCI w (c :: rest) &&
      notWordEnd ((c :: rest).drop w.length))
    || wbOccursAux w (some c) rest

/-- Word-boundary search from the start of the line. -/
def wbOccurs (w : Str) (s : Str) : Bool := wbOccursAux w none s

/-- Vocabulary of `\b(?:TODO|FIXME|IMPORTANT|NOTE|决策|重要)\b`. -/
def importantWordsA : List Str :=
  [str "TODO", str "FIXME", str "IMPORTANT", str "NOTE", str "决策", str "重要"]

/-- Vocabulary of `\b(?:完成|进行中|阻塞)\b`. -/
def importantWordsB : List Str := [str "完成", str "进行中", str "阻塞"]

/-- `any(re.search(pattern, line, re.IGNORECASE) for pattern in important_patterns)`. -/
def isImportant (line : Str) : Bool :=
  matchBullet line || matchNumbered line ||
  importantWordsA.any (fun w => wbOccurs w line) ||
  importantWordsB.any (fun w => wbOccurs w line) ||
  matchHeading line

/-- The collection loop of `extract_key_points`: `n` is the number of points
collected so far; a line is appended and then the loop breaks once
`len(key_points) >= max_points`. -/
def collectKP (maxP : Nat) : List Str → Nat → List Str
  | [], _ => []
  | l :: ls, n =>
    let line := stripL l
    if line = [] ∨ line.length < 10 then collectKP maxP ls n
    else if isImportant line then
      if maxP ≤ n + 1 then [line]
      else line :: collectKP maxP ls (n + 1)
    else collectKP maxP ls n

/-- `VikingSummarizer.extract_key_points`. -/
def extractKeyPoints (maxP : Nat) (text : Str) : List Str :=
  collectKP maxP (splitLines (stripL text)) 0

/-! ## generate_l1_overview (src/tools/summarizer.py, lines 102-155) -/

/-- Python `line.replace('## ', '')`. -/
def removeHashHashSp : Str → Str
  | '#' :: '#' :: ' ' :: rest => removeHashHashSp rest
  | c :: rest => c :: removeHashHashSp rest
  | [] => []

/-- The section-extraction loop of `generate_l1_overview`: `cur` is
`current_section` (`""` when no section is open); a `## ` heading pushes the
open section and opens a new one, a `# ` heading pushes and closes, and a
body line of length `> 10` is appended truncated to 100 characters with a
`"... "` marker.  The open section is pushed at end of input. -/
def extractSections : List Str → Str → List Str
  | [], cur => if cur ≠ [] then [cur] else []
  | l :: ls, cur =>
    let line := stripL l
    if startsWithL (str "## ") line then
      (if cur ≠ [] then [cur] else []) ++
        extractSections ls (removeHashHashSp line ++ str ": ")
    else if startsWithL (str "# ") line then
      (if cur ≠ [] then [cur] else []) ++ extractSections ls []
    else if cur ≠ [] ∧ line ≠ [] ∧ 10 < line.length then
      extractSections ls (cur ++ line.take 100 ++ str "... ")
    else extractSections ls cur

/-- `f"  {i}. {point[:80]}"` over `enumerate(key_points[:3], 1)`. -/
def numberKP : Nat → List Str → List Str
  | _, [] => []
  | i, p :: ps =>
    (str "  " ++ Nat.toDigits 10 i ++ str ". " ++ p.take 80) :: numberKP (i + 1) ps

/-- Python `'\n'.join` / `'\n\n'.join`. -/
def joinSep (sep : Str) : List Str → Str
  | [] => []
  | [x] => x
  | x :: y :: t => x ++ sep ++ joinSep sep (y :: t)

/-- The blank-line-paragraph fallback of `generate_l1_overview` (lines
144-149): paragraphs of the *original* text, stripped, kept when longer than
20 characters; up to two are emitted truncated to 150 characters. -/
def fallbackParas (text : Str) : List Str :=
  let paras := (splitParas text).map stripL |>.filter (fun p => 20 < p.length)
  match paras with
  | [] => []
  | _ => str "主要内容:" ::
      (paras.take 2).map (fun p => str "  • " ++ p.take 150 ++ str "...")

/-- `VikingSummarizer.generate_l1_overview`. -/
def generateL1 (cfg : SummCfg) (text : Str) : Str :=
  let key_points := extractKeyPoints 5 text
  let sections := extractSections (splitLines (stripL text)) []
  let partsKP :=
    if key_points ≠ [] then str "关键点:" :: numberKP 1 (key_points.take 3) else []
  let partsSec :=
    if sections ≠ [] then
      str "章节:" :: (sections.take 4).map (fun s => str "  • " ++ s.take 100)
    else []
  let parts := partsKP ++ partsSec
  let parts1 := if parts = [] then fallbackParas text else parts
  pyTake (joinSep (str "\n") parts1) cfg.L1_max

/-! ## Tiers and bridge-v2 configuration (src/integration/bridge_v2.py) -/

/-- The three storage tiers `L0` (summary), `L1` (overview), `L2` (full). -/
inductive Tier where
  | L0 | L1 | L2
  deriving DecidableEq

/-- Tier directory name, as interpolated in `f"--- {tier} ---"`. -/
def tierName : Tier → Str
  | .L0 => str "L0"
  | .L1 => str "L1"
  | .L2 => str "L2"

/-- Operating mode (`config["mode"]`): `hybrid | viking | traditional`. -/
inductive Mode where
  | traditional | viking | hybrid
  deriving DecidableEq

/-- The options of `bridge_config.json` the engine reads. -/
structure ConfigV2 where
  mode : Mode
  query_classifier : Bool
  deriving DecidableEq

/-- Defaults of `OpenClawVikingBridgeV2.load_config`. -/
def defaultConfigV2 : ConfigV2 := ⟨.hybrid, true⟩

/-- A user configuration file's recognized overrides (absent keys fall back
to the defaults via `{**default_config, **user_config}`). -/
structure UserCfgV2 where
  mode : Option Mode
  query_classifier : Option Bool

/-- What the loader finds at the configuration path. -/
inductive CfgSrc where
  | missing
  | unreadable
  | parsed (c : UserCfgV2)

/-- `OpenClawVikingBridgeV2.load_config` (lines 124-143): a missing file
yields the defaults; a file that fails to parse is swallowed by the bare
`except:` and also yields the defaults; a parsed file is merged over the
defaults.  No value is ever validated and no error is ever raised. -/
def loadConfigV2 : CfgSrc → ConfigV2
  | .missing => defaultConfigV2
  | .unreadable => defaultConfigV2
  | .parsed c =>
    ⟨c.mode.getD defaultConfigV2.mode,
     c.query_classifier.getD defaultConfigV2.query_classifier⟩

/-! ## Query classification, v2 (bridge_v2.py, classify_query, lines 175-206) -/

/-- Query categories of the v2 classifier. -/
inductive QType2 where
  | factual_date | administrative | analytical | creative
  | factual_list | factual | general
  deriving DecidableEq

def kwV2Date : List Str := [str "什么时候", str "日期", str "时间", str "几号"]
def kwV2Admin : List Str := [str "检查", str "状态", str "报告", str "总结"]
def kwV2Ana : List Str := [str "分析", str "为什么", str "原因", str "对比"]
def kwV2Creative : List Str := [str "如何", str "改进", str "创意", str "建议"]
def kwV2List : List Str := [str "列出", str "有哪些", str "什么技能"]

/-- `any(word in query_lower for word in [...])`. -/
def anyKw (kws : List Str) (ql : Str) : Bool := kws.any (fun w => occursIn w ql)

/-- `OpenClawVikingBridgeV2.classify_query`: a cascade of keyword checks over
the lower-cased query; the question-mark check inspects the original query. -/
def classifyV2 (q : Str) : QType2 × ℚ :=
  let ql := pyLower q
  if anyKw kwV2Date ql then (.factual_date, 9/10)
  else if anyKw kwV2Admin ql then (.administrative, 4/5)
  else if anyKw kwV2Ana ql then (.analytical, 7/10)
  else if anyKw kwV2Creative ql then (.creative, 7/10)
  else if anyKw kwV2List ql then (.factual_list, 4/5)
  else if occursIn (str "?") q || occursIn (str "？") q then (.factual, 3/5)
  else (.general, 1/2)

/-- `OpenClawVikingBridgeV2.get_tier_strategy` (lines 208-222).  Note that the
confidence is consulted only in the `analytical` arm (`confidence > 0.7`);
there is no minimum-confidence threshold check. -/
def getTierStrategy (cfg : ConfigV2) (t : QType2) (conf : ℚ) : List Tier :=
  if cfg.query_classifier = false then [.L0, .L1]
  else match t with
    | .administrative => [.L0]
    | .factual_date | .factual_list | .factual => [.L0, .L1]
    | .analytical => if 7/10 < conf then [.L1, .L2] else [.L0, .L1, .L2]
    | .creative => [.L0, .L1, .L2]
    | _ => [.L0, .L1]

/-- Tier list chosen by `OpenClawVikingBridgeV2.query_memory` (lines 253-261)
for a given configuration and query. -/
def queryMemoryTiers (cfg : ConfigV2) (q : Str) : List Tier :=
  match cfg.mode with
  | .traditional => [.L2]
  | .viking => [.L0, .L1]
  | .hybrid =>
    let c := classifyV2 q
    getTierStrategy cfg c.1 c.2

/-! ## Tier-content loading (bridge_v2.py lines 224-243, openclaw_bridge.py
lines 280-299)

A tier directory is modelled as the glob result: the list of `*.md` files in
directory-listing order, each with a modification time and a read outcome. -/

/-- Outcome of reading one file. -/
inductive ReadRes where
  | ok (s : Str)
  | ioError
  deriving DecidableEq

/-- One candidate file of a tier directory. -/
structure FileEnt where
  mtime : Int
  content : ReadRes
  deriving DecidableEq

/-- One insertion step of a stable descending sort on `st_mtime`
(`sorted(md_files, key=lambda x: x.stat().st_mtime, reverse=True)`). -/
def insertDesc (f : FileEnt) : List FileEnt → List FileEnt
  | [] => [f]
  | g :: gs => if g.mtime ≤ f.mtime then f :: g :: gs else g :: insertDesc f gs

/-- Stable sort by modification time, newest first. -/
def sortByMtimeDesc : List FileEnt → List FileEnt
  | [] => []
  | f :: fs => insertDesc f (sortByMtimeDesc fs)

/-- `OpenClawVikingBridgeV2.load_tier_content`: a missing directory or an
empty glob yields `""`; otherwise the newest file is read, with any read
error swallowed by the bare `except:` into `""`.  The `Except` codomain
records that the function could signal an error; the source never does. -/
def loadTierV2 (dir : Option (List FileEnt)) : Except Unit Str :=
  match dir with
  | none => .ok []
  | some files =>
    match sortByMtimeDesc files with
    | [] => .ok []
    | f :: _ =>
      match f.content with
      | .ok s => .ok s
      | .ioError => .ok []

/-- `OpenClawVikingBridge.load_tier_content` (v1): same shape, but it reads
`files[0]` — the *first* file of the glob — and returns `None` for a missing
directory, an empty glob, or a failed read. -/
def loadTierV1 (dir : Option (List FileEnt)) : Option Str :=
  match dir with
  | none => none
  | some [] => none
  | some (f :: _) =>
    match f.content with
    | .ok s => some s
    | .ioError => none

/-! ## Retrieval orchestration (bridge_v2.py, query_memory, lines 263-279) -/

/-- A store: each tier's directory glob (or `none` when the directory does
not exist). -/
abbrev StoreV2 := Tier → Option (List FileEnt)

/-- The string `load_tier_content` hands back to `query_memory`. -/
def tierStr (d : Option (List FileEnt)) : Str :=
  match loadTierV2 d with
  | .ok s => s
  | .error _ => []

/-- `f"--- {tier} ---\n{tier_content}"` for a tier whose content is
non-empty (`if tier_content:`), else nothing. -/
def tierPart (st : StoreV2) (t : Tier) : Option Str :=
  let c := tierStr (st t)
  if c = [] then none
  else some (str "--- " ++ tierName t ++ str " ---\n" ++ c)

/-- `"\n\n".join(content_parts)` over the selected tiers. -/
def buildContent (st : StoreV2) (tiers : List Tier) : Str :=
  joinSep (str "\n\n") (tiers.filterMap (tierPart st))

/-- `response_tokens = response_chars * 0.25`. -/
def respTokens (st : StoreV2) (tiers : List Tier) : ℚ :=
  ((buildContent st tiers).length : ℚ) * (1/4)

/-! ## Query classification, v1 (openclaw_bridge.py, classify_query, lines
164-205) -/

/-- Query categories of the v1 classifier, in the dictionary-declaration
order of `type_patterns`. -/
inductive QType1 where
  | factual | creative | administrative | analytical
  deriving DecidableEq

def kwV1Factual : List Str :=
  [str "什么时候", str "哪里", str "谁", str "是什么", str "多少",
   str "日期", str "时间", str "列出", str "有哪些"]
def kwV1Creative : List Str :=
  [str "想法", str "建议", str "创意", str "怎么办", str "如何",
   str "设计", str "改进", str "优化"]
def kwV1Admin : List Str :=
  [str "状态", str "进度", str "检查", str "报告", str "总结",
   str "概览", str "汇总"]
def kwV1Ana : List Str :=
  [str "为什么", str "分析", str "原因", str "对比", str "优劣",
   str "优缺点", str "评估"]

/-- Per-category raw score: one point per pattern contained in the
lower-cased query. -/
def countKw (kws : List Str) (ql : Str) : ℚ :=
  (kws.countP (fun w => occursIn w ql) : ℚ)

/-- `OpenClawVikingBridge.classify_query`.  Only the positive scores enter
`type_scores` (insertion order `factual, creative, administrative,
analytical`); `max(type_scores, key=type_scores.get)` returns the first key
attaining the maximum in that order; the confidence divides by the sum of
the positive scores (the `or 1` fallback of the source is unreachable there,
the sum being positive). -/
def classifyV1 (q : Str) : QType1 × ℚ :=
  let ql := pyLower q
  let sf := countKw kwV1Factual ql +
    (if occursIn (str "?") q || occursIn (str "？") q then 1/2 else 0)
  let sc := countKw kwV1Creative ql
  let sad := countKw kwV1Admin ql
  let san := countKw kwV1Ana ql
  let scores := ([(QType1.factual, sf), (.creative, sc),
    (.administrative, sad), (.analytical, san)]).filter (fun p => 0 < p.2)
  match scores with
  | [] => (.factual, 1/2)
  | s :: ss =>
    let m := ss.foldl (fun a p => max a p.2) s.2
    let best := ((s :: ss).find? (fun p => p.2 = m)).getD s
    (best.1, best.2 / ((s :: ss).map (fun p => p.2)).sum)

/-- Tier list chosen by `OpenClawVikingBridge.query_hybrid` (lines 234-254):
below the configured minimum confidence all three tiers are selected,
otherwise the selection follows the primary type. -/
def queryHybridTiersV1 (minConf : ℚ) (t : QType1) (conf : ℚ) : List Tier :=
  if conf < minConf then [.L0, .L1, .L2]
  else if t = .administrative then [.L0]
  else if t = .factual ∨ t = .analytical then [.L0, .L1]
  else [.L0, .L1, .L2]

/-- Default `query_classification.min_confidence` of the v1 bridge. -/
def defaultMinConfV1 : ℚ := 3/5

/-! ## Statistics (openclaw_bridge.py update_stats lines 321-361,
bridge_v2.py update_stats lines 313-349)

Wall-clock timestamps are omitted from the history records (they are
`datetime.now()` noise and no claim concerns them). -/

/-- The arguments `update_stats` receives for one recorded query, v1. -/
structure QRec where
  qtype : QType1
  query : Str
  confidence : ℚ
  vik : ℚ
  trad : ℚ
  rate : ℚ

/-- Persisted statistics of the v1 bridge (`load_stats` default keys). -/
structure StatsV1 where
  total_queries : Nat
  viking_queries : Nat
  traditional_queries : Nat
  total_tokens_viking : ℚ
  total_tokens_traditional : ℚ
  total_tokens_saved : ℚ
  average_saving_rate : ℚ
  query_type_distribution : QType1 → Nat
  query_history : List QRec

/-- The zeroed `default_stats` of `OpenClawVikingBridge.load_stats`. -/
def defaultStatsV1 : StatsV1 :=
  ⟨0, 0, 0, 0, 0, 0, 0, fun _ => 0, []⟩

/-- `OpenClawVikingBridge.update_stats`: increments the query counters,
accumulates token totals, recomputes the average as cumulative saved over
cumulative traditional when the latter is positive, bumps the per-type
count, and appends to the history bounded at the most recent 100 entries.
The `traditional_queries` field is written by no operation. -/
def updateStatsV1 (s : StatsV1) (q : QRec) : StatsV1 :=
  let ttv := s.total_tokens_viking + q.vik
  let ttt := s.total_tokens_traditional + q.trad
  let tts := s.total_tokens_saved + (q.trad - q.vik)
  let avg := if 0 < ttt then tts / ttt else s.average_saving_rate
  let dist := fun t =>
    if t = q.qtype then s.query_type_distribution t + 1
    else s.query_type_distribution t
  let hist :=
    let h := s.query_history ++ [q]
    if 100 < h.length then h.drop (h.length - 100) else h
  ⟨s.total_queries + 1, s.viking_queries + 1, s.traditional_queries,
   ttv, ttt, tts, avg, dist, hist⟩

/-- The arguments `update_stats` receives for one recorded query, v2. -/
structure QRecV2 where
  qtype : QType2
  query : Str
  vik : ℚ
  trad : ℚ
  rate : ℚ

/-- Persisted statistics of the v2 bridge (`load_stats` default keys). -/
structure StatsV2 where
  queries_total : Nat
  queries_viking : Nat
  tokens_total : ℚ
  tokens_saved : ℚ
  saving_rate_avg : ℚ
  query_types : QType2 → Nat
  performance_history : List QRecV2

/-- The zeroed `default_stats` of `OpenClawVikingBridgeV2.load_stats`. -/
def defaultStatsV2 : StatsV2 := ⟨0, 0, 0, 0, 0, fun _ => 0, []⟩

/-- `OpenClawVikingBridgeV2.update_stats`: the average is recomputed as
cumulative `tokens_saved` divided by `queries_total * traditional_tokens`,
i.e. the query count times the *current* query's baseline (the v2 stats
carry no cumulative-baseline field); the history is bounded at 50. -/
def updateStatsV2 (s : StatsV2) (q : QRecV2) : StatsV2 :=
  let qt := s.queries_total + 1
  let saved := s.tokens_saved + (q.trad - q.vik)
  let avg :=
    if 0 < qt then
      let tt := (qt : ℚ) * q.trad
      if 0 < tt then saved / tt else s.saving_rate_avg
    else s.saving_rate_avg
  let dist := fun t =>
    if t = q.qtype then s.query_types t + 1 else s.query_types t
  let hist :=
    let h := s.performance_history ++ [q]
    if 50 < h.length then h.drop (h.length - 50) else h
  ⟨qt, s.queries_viking + 1, s.tokens_total + q.vik, saved, avg, dist, hist⟩

/-! ## Helper lemmas -/

theorem l0combine_ne_nil (text title fc : Str) (h : text ≠ []) :
    l0combine text title fc ≠ [] := by
  unfold l0combine
  split_ifs with h1 h2 h3 h4
  · intro heq
    rw [List.append_eq_nil] at heq
    exact (by decide : str "..." ≠ []) heq.2
  · intro heq
    rw [List.append_eq_nil] at heq
    exact (by decide : str "..." ≠ []) heq.2
  · intro heq
    rw [List.append_eq_nil] at heq
    exact (by decide : str "..." ≠ []) heq.2
  · intro heq
    rw [List.append_eq_nil] at heq
    exact (by decide : str "..." ≠ []) heq.2
  · exact h

theorem pyTake_len_le (s : Str) (n : Int) (h : 0 ≤ n) :
    ((pyTake s n).length : Int) ≤ n := by
  unfold pyTake
  rw [if_pos h]
  have h1 : (s.take n.toNat).length ≤ n.toNat := by
    rw [List.length_take]; omega
  omega

theorem pyTake_ne_nil (s : Str) (n : Int) (hs : s ≠ []) (h1 : 1 ≤ n) :
    pyTake s n ≠ [] := by
  unfold pyTake
  rw [if_pos (by omega)]
  intro heq
  rcases List.take_eq_nil_iff.mp heq with h2 | h2
  · omega
  · exact hs h2

/-! ## Claim theorems -/

/-- Claim C6: for every non-empty input text and every configuration with a
positive Tier0 maximum (the default is 100), the Tier0 summary produced by
`generate_l0_summary` has at most `L0_max_chars` characters and is
non-empty. -/
theorem c6_tier0_bounded_nonempty (cfg : SummCfg) (text : Str)
    (h : text ≠ []) (hm : 1 ≤ cfg.L0_max) :
    ((generateL0 cfg text).length : Int) ≤ cfg.L0_max ∧
      generateL0 cfg text ≠ [] := by
  unfold generateL0
  exact ⟨pyTake_len_le _ _ (by omega),
    pyTake_ne_nil _ _ (l0combine_ne_nil _ _ _ h) hm⟩

/-- Witness for C6 at the concrete input `"hi"` under the default
configuration. -/
theorem c6_witness :
    (str "hi" ≠ [] ∧ 1 ≤ defaultSummCfg.L0_max) ∧
      (((generateL0 defaultSummCfg (str "hi")).length : Int) ≤
          defaultSummCfg.L0_max ∧
        generateL0 defaultSummCfg (str "hi") ≠ []) :=
  ⟨⟨by decide, by decide⟩,
    c6_tier0_bounded_nonempty defaultSummCfg (str "hi") (by decide) (by decide)⟩

/-- The scenario input of claim C7. -/
def c7input : Str := str "# Report\n## Progress\n- done task A\n- done task B\n"

/-- Claim C7: on the scenario input under the default configuration, the
Tier0 summary contains `"Report"`, the Tier1 overview contains a section
labeled `"Progress"` (inside its `章节:` block), and at least two key
points are extracted (the overview shows a second numbered point). -/
theorem c7_report_scenario :
    occursIn (str "Report") (generateL0 defaultSummCfg c7input) = true ∧
    occursIn (str "章节:\n  • Progress:") (generateL1 defaultSummCfg c7input) = true ∧
    occursIn (str "  2. ") (generateL1 defaultSummCfg c7input) = true ∧
    2 ≤ (extractKeyPoints 5 c7input).length := by
  refine ⟨by decide, by decide, by decide, by decide⟩

/-- Claim C4, counterexample: the summarizer loader accepts a configuration
whose max-chars is the invalid value `-5` and returns it as the active
configuration — no error is signalled at load time — and the v2 bridge
loader silently replaces an unreadable configuration file with the built-in
defaults. -/
theorem c4_counterexample :
    loadConfigSummarizer (some ⟨-5, 500⟩) = .ok ⟨-5, 500⟩ ∧
    (Except.ok (⟨-5, 500⟩ : SummCfg) ≠ (.error () : Except Unit SummCfg)) ∧
    (-5 : Int) < 0 ∧
    loadConfigV2 .unreadable = defaultConfigV2 := by
  refine ⟨rfl, by simp, by decide, rfl⟩

/-- Claim C4 as amended: configuration loading performs no validation of
option values — any parsed configuration (e.g. one with a negative
max-chars) is installed unchanged and without error — and the v2 bridge
silently substitutes the defaults for an unreadable configuration file. -/
theorem c4_amended (c : SummCfg) :
    loadConfigSummarizer (some c) = .ok c ∧
    loadConfigV2 .unreadable = defaultConfigV2 :=
  ⟨rfl, rfl⟩

/-- Claim C5, counterexample: an I/O error raised while reading the newest
file of a tier does *not* propagate — the bare `except:` of
`load_tier_content` converts it into a normal empty result. -/
theorem c5_counterexample :
    loadTierV2 (some [⟨0, .ioError⟩]) = .ok [] ∧
    (Except.ok ([] : Str) ≠ (.error () : Except Unit Str)) :=
  ⟨rfl, by simp⟩

/-- Claim C5 as amended: retrieval never signals an error — a tier whose
directory is absent contributes nothing and the remaining tiers' contents
are returned unchanged (dropping the absent tier from the selection leaves
the concatenated content identical) — and an I/O error while reading a tier
is caught internally and treated as empty content, not propagated. -/
theorem c5_amended (st : StoreV2) (tiers : List Tier) (t : Tier)
    (h : st t = none) :
    buildContent st tiers =
      buildContent st (tiers.filter (fun x => x ≠ t)) ∧
    ∀ d : Option (List FileEnt), ∃ s, loadTierV2 d = .ok s := by
  have hp : tierPart st t = none := by
    simp [tierPart, tierStr, h, loadTierV2]
  constructor
  · unfold buildContent
    congr 1
    induction tiers with
    | nil => rfl
    | cons a as ih =>
      by_cases hat : a = t
      · subst hat
        simpa [List.filterMap_cons, hp] using ih
      · simp [List.filterMap_cons, hat, ih]
  · intro d
    match d with
    | none => exact ⟨[], rfl⟩
    | some files =>
      match hs : sortByMtimeDesc files with
      | [] => exact ⟨[], by simp [loadTierV2, hs]⟩
      | f :: fs =>
        match hc : f.content with
        | .ok s => exact ⟨s, by simp [loadTierV2, hs, hc]⟩
        | .ioError => exact ⟨[], by simp [loadTierV2, hs, hc]⟩

/-- Witness for C5 at a concrete store whose `L1` directory is absent. -/
theorem c5_witness :
    ((fun t => match t with
      | Tier.L1 => none
      | _ => some [⟨0, ReadRes.ok (str "x")⟩]) : StoreV2) Tier.L1 = none ∧
    (buildContent (fun t => match t with
        | Tier.L1 => none
        | _ => some [⟨0, ReadRes.ok (str "x")⟩]) [Tier.L0, Tier.L1, Tier.L2] =
      buildContent (fun t => match t with
        | Tier.L1 => none
        | _ => some [⟨0, ReadRes.ok (str "x")⟩])
        ([Tier.L0, Tier.L1, Tier.L2].filter (fun x => x ≠ Tier.L1)) ∧
      ∀ d : Option (List FileEnt), ∃ s, loadTierV2 d = .ok s) :=
  ⟨rfl, c5_amended _ [Tier.L0, Tier.L1, Tier.L2] Tier.L1 rfl⟩

/-- Claim C1, counterexample: in the v2 bridge the query `"hello"` is
classified `general` with confidence `0.5 < 0.6`, yet hybrid-mode tier
selection (`get_tier_strategy`, which never consults the minimum-confidence
threshold) returns `[L0, L1]`, not all three tiers. -/
theorem c1_counterexample :
    classifyV2 (str "hello") = (QType2.general, 1/2) ∧
    (1/2 : ℚ) < 3/5 ∧
    queryMemoryTiers defaultConfigV2 (str "hello") = [Tier.L0, Tier.L1] ∧
    ([Tier.L0, Tier.L1] : List Tier) ≠ [Tier.L0, Tier.L1, Tier.L2] := by
  refine ⟨rfl, by norm_num, rfl, by decide⟩

/-- Claim C1 as amended: in the v1 bridge's hybrid mode (`query_hybrid`),
every query whose classification confidence is below the configured minimum
confidence threshold selects all three tiers, regardless of the primary
type; the v2 bridge's tier selector ignores the threshold and selects by
type alone. -/
theorem c1_amended (minConf conf : ℚ) (t : QType1) (h : conf < minConf) :
    queryHybridTiersV1 minConf t conf = [Tier.L0, Tier.L1, Tier.L2] := by
  unfold queryHybridTiersV1
  rw [if_pos h]

/-- Witness for C1 at the default threshold `0.6` with confidence `0.5`. -/
theorem c1_witness :
    (1/2 : ℚ) < defaultMinConfV1 ∧
    queryHybridTiersV1 defaultMinConfV1 QType1.factual (1/2) =
      [Tier.L0, Tier.L1, Tier.L2] :=
  ⟨by norm_num [defaultMinConfV1],
   c1_amended _ _ _ (by norm_num [defaultMinConfV1])⟩

/-- Claim C2 as amended: in the v2 bridge, a query matching no classifier
keyword and containing no question mark is classified with the default
category `general` at confidence exactly `0.5`, and hybrid-mode tier
selection returns exactly `[L0, L1]`; in the v1 bridge the same query
instead triggers the low-confidence branch and loads all three tiers. -/
theorem c2_amended (q : Str)
    (h1 : anyKw kwV2Date (pyLower q) = false)
    (h2 : anyKw kwV2Admin (pyLower q) = false)
    (h3 : anyKw kwV2Ana (pyLower q) = false)
    (h4 : anyKw kwV2Creative (pyLower q) = false)
    (h5 : anyKw kwV2List (pyLower q) = false)
    (h6 : occursIn (str "?") q = false)
    (h7 : occursIn (str "？") q = false) :
    classifyV2 q = (QType2.general, 1/2) ∧
    queryMemoryTiers defaultConfigV2 q = [Tier.L0, Tier.L1] := by
  have hc : classifyV2 q = (QType2.general, 1/2) := by
    simp only [classifyV2, h1, h2, h3, h4, h5, h6, h7]
    simp
  refine ⟨hc, ?_⟩
  show getTierStrategy defaultConfigV2 (classifyV2 q).1 (classifyV2 q).2 =
    [Tier.L0, Tier.L1]
  rw [hc]
  rfl

/-- Witness for C2 at the concrete keyword-free query `"hello"`. -/
theorem c2_witness :
    (anyKw kwV2Date (pyLower (str "hello")) = false ∧
     anyKw kwV2Admin (pyLower (str "hello")) = false ∧
     anyKw kwV2Ana (pyLower (str "hello")) = false ∧
     anyKw kwV2Creative (pyLower (str "hello")) = false ∧
     anyKw kwV2List (pyLower (str "hello")) = false ∧
     occursIn (str "?") (str "hello") = false ∧
     occursIn (str "？") (str "hello") = false) ∧
    (classifyV2 (str "hello") = (QType2.general, 1/2) ∧
     queryMemoryTiers defaultConfigV2 (str "hello") = [Tier.L0, Tier.L1]) :=
  ⟨⟨rfl, rfl, rfl, rfl, rfl, rfl, rfl⟩,
   c2_amended (str "hello") rfl rfl rfl rfl rfl rfl rfl⟩

/-- Claim C2, counterexample: in the v1 bridge the keyword-free,
question-mark-free query `"hello"` is classified `(factual, 0.5)`, and the
hybrid path (`query_hybrid` with the default minimum confidence `0.6`)
selects all three tiers, not `[L0, L1]`. -/
theorem c2_counterexample :
    classifyV1 (str "hello") = (QType1.factual, 1/2) ∧
    queryHybridTiersV1 defaultMinConfV1 QType1.factual (1/2) =
      [Tier.L0, Tier.L1, Tier.L2] ∧
    ([Tier.L0, Tier.L1, Tier.L2] : List Tier) ≠ [Tier.L0, Tier.L1] := by
  refine ⟨?_, ?_, by decide⟩
  · have e1 : countKw kwV1Factual (pyLower (str "hello")) = 0 := by
      have h : kwV1Factual.countP (fun w => occursIn w (pyLower (str "hello"))) = 0 := rfl
      simp [countKw, h]
    have e2 : countKw kwV1Creative (pyLower (str "hello")) = 0 := by
      have h : kwV1Creative.countP (fun w => occursIn w (pyLower (str "hello"))) = 0 := rfl
      simp [countKw, h]
    have e3 : countKw kwV1Admin (pyLower (str "hello")) = 0 := by
      have h : kwV1Admin.countP (fun w => occursIn w (pyLower (str "hello"))) = 0 := rfl
      simp [countKw, h]
    have e4 : countKw kwV1Ana (pyLower (str "hello")) = 0 := by
      have h : kwV1Ana.countP (fun w => occursIn w (pyLower (str "hello"))) = 0 := rfl
      simp [countKw, h]
    have q1 : occursIn (str "?") (str "hello") = false := rfl
    have q2 : occursIn (str "？") (str "hello") = false := rfl
    simp only [classifyV1, e1, e2, e3, e4, q1, q2]
    norm_num
  · unfold queryHybridTiersV1
    rw [if_pos (by norm_num [defaultMinConfV1])]

theorem foldl_statsV1_trad (qs : List QRec) (s : StatsV1) :
    (qs.foldl updateStatsV1 s).total_tokens_traditional =
      s.total_tokens_traditional + (qs.map (fun q => q.trad)).sum := by
  induction qs generalizing s with
  | nil => simp
  | cons q qs ih => simp [List.foldl_cons, ih, updateStatsV1, add_assoc]

theorem foldl_statsV1_saved (qs : List QRec) (s : StatsV1) :
    (qs.foldl updateStatsV1 s).total_tokens_saved =
      s.total_tokens_saved + (qs.map (fun q => q.trad - q.vik)).sum := by
  induction qs generalizing s with
  | nil => simp
  | cons q qs ih => simp [List.foldl_cons, ih, updateStatsV1, add_assoc]

theorem foldl_statsV1_avg (qs : List QRec) (s : StatsV1)
    (h : 0 < s.total_tokens_traditional →
      s.average_saving_rate =
        s.total_tokens_saved / s.total_tokens_traditional) :
    0 < (qs.foldl updateStatsV1 s).total_tokens_traditional →
      (qs.foldl updateStatsV1 s).average_saving_rate =
        (qs.foldl updateStatsV1 s).total_tokens_saved /
          (qs.foldl updateStatsV1 s).total_tokens_traditional := by
  induction qs generalizing s with
  | nil => exact h
  | cons q qs ih =>
    rw [List.foldl_cons]
    apply ih
    intro hpos
    simp only [updateStatsV1] at hpos ⊢
    rw [if_pos hpos]

/-- Claim C3: in the v1 bridge, after any sequence of recorded queries with
a positive cumulative baseline, the stored running average saving rate
equals the cumulative tokens saved divided by the cumulative baseline
(traditional) tokens of *all* recorded queries. -/
theorem c3_avg_cumulative (qs : List QRec)
    (h : 0 < (qs.foldl updateStatsV1 defaultStatsV1).total_tokens_traditional) :
    (qs.foldl updateStatsV1 defaultStatsV1).average_saving_rate =
      (qs.foldl updateStatsV1 defaultStatsV1).total_tokens_saved /
        (qs.foldl updateStatsV1 defaultStatsV1).total_tokens_traditional ∧
    (qs.foldl updateStatsV1 defaultStatsV1).total_tokens_saved =
      (qs.map (fun q => q.trad - q.vik)).sum ∧
    (qs.foldl updateStatsV1 defaultStatsV1).total_tokens_traditional =
      (qs.map (fun q => q.trad)).sum := by
  refine ⟨foldl_statsV1_avg qs defaultStatsV1 ?_ h, ?_, ?_⟩
  · intro h0
    norm_num [defaultStatsV1] at h0
  · rw [foldl_statsV1_saved]
    norm_num [defaultStatsV1]
  · rw [foldl_statsV1_trad]
    norm_num [defaultStatsV1]

/-- Witness for C3 at one concrete recorded query (4 baseline tokens, 1
viking token). -/
theorem c3_witness :
    0 < ([(⟨QType1.factual, [], 1, 1, 4, 3/4⟩ : QRec)].foldl updateStatsV1
        defaultStatsV1).total_tokens_traditional ∧
    (([(⟨QType1.factual, [], 1, 1, 4, 3/4⟩ : QRec)].foldl updateStatsV1
        defaultStatsV1).average_saving_rate =
      ([(⟨QType1.factual, [], 1, 1, 4, 3/4⟩ : QRec)].foldl updateStatsV1
          defaultStatsV1).total_tokens_saved /
        ([(⟨QType1.factual, [], 1, 1, 4, 3/4⟩ : QRec)].foldl updateStatsV1
            defaultStatsV1).total_tokens_traditional ∧
    ([(⟨QType1.factual, [], 1, 1, 4, 3/4⟩ : QRec)].foldl updateStatsV1
        defaultStatsV1).total_tokens_saved =
      ([(⟨QType1.factual, [], 1, 1, 4, 3/4⟩ : QRec)].map
        (fun q => q.trad - q.vik)).sum ∧
    ([(⟨QType1.factual, [], 1, 1, 4, 3/4⟩ : QRec)].foldl updateStatsV1
        defaultStatsV1).total_tokens_traditional =
      ([(⟨QType1.factual, [], 1, 1, 4, 3/4⟩ : QRec)].map
        (fun q => q.trad)).sum) :=
  ⟨by norm_num [updateStatsV1, defaultStatsV1],
   c3_avg_cumulative _ (by norm_num [updateStatsV1, defaultStatsV1])⟩

/-- Claim C3, counterexample: in the v2 bridge, after two recorded queries
with baselines 4 and 8 (1 viking token each), the stored average is
`10 / (2 * 8) = 5/8` — the query count times the *most recent* baseline —
whereas the cumulative formula gives `10 / (4 + 8) = 5/6`. -/
theorem c3_counterexample :
    ([(⟨QType2.general, [], 1, 4, 0⟩ : QRecV2),
      ⟨QType2.general, [], 1, 8, 0⟩].foldl updateStatsV2
        defaultStatsV2).tokens_saved = 10 ∧
    ([(⟨QType2.general, [], 1, 4, 0⟩ : QRecV2),
      ⟨QType2.general, [], 1, 8, 0⟩].foldl updateStatsV2
        defaultStatsV2).saving_rate_avg = 5/8 ∧
    ((5 : ℚ)/8 ≠ 10 / ((4 : ℚ) + 8)) := by
  refine ⟨?_, ?_, by norm_num⟩ <;>
    norm_num [List.foldl_cons, List.foldl_nil, updateStatsV2, defaultStatsV2]

theorem joinSep_cons_length (sep a : Str) (l : List Str) :
    (joinSep sep l).length ≤ (joinSep sep (a :: l)).length := by
  cases l with
  | nil => simp [joinSep]
  | cons x t =>
    show (joinSep sep (x :: t)).length ≤
      (a ++ sep ++ joinSep sep (x :: t)).length
    simp [List.length_append]
    omega

theorem joinSep_length_mono (sep : Str) {l1 l2 : List Str}
    (h : List.Sublist l1 l2) :
    (joinSep sep l1).length ≤ (joinSep sep l2).length := by
  induction h with
  | slnil => exact le_refl _
  | cons a _ ih => exact le_trans ih (joinSep_cons_length sep a _)
  | @cons₂ l1 l2 a h ih =>
    cases l1 with
    | nil =>
      cases l2 with
      | nil => exact le_refl _
      | cons y t2 =>
        show a.length ≤ (a ++ sep ++ joinSep sep (y :: t2)).length
        simp [List.length_append]
    | cons x t1 =>
      cases l2 with
      | nil => exact absurd h (by simp)
      | cons y t2 =>
        show (a ++ sep ++ joinSep sep (x :: t1)).length ≤
          (a ++ sep ++ joinSep sep (y :: t2)).length
        simp only [List.length_append]
        have := ih
        omega

theorem buildContent_length_mono (st : StoreV2) {l1 l2 : List Tier}
    (h : List.Sublist l1 l2) :
    (buildContent st l1).length ≤ (buildContent st l2).length :=
  joinSep_length_mono _ (h.filterMap (tierPart st))

theorem getTierStrategy_sublist (cfg : ConfigV2) (t : QType2) (conf : ℚ) :
    List.Sublist (getTierStrategy cfg t conf) [Tier.L0, Tier.L1, Tier.L2] := by
  unfold getTierStrategy
  split_ifs with h1 h2 <;> cases t <;>
    first
      | exact List.Sublist.refl _
      | exact (by decide : List.Sublist [Tier.L0] [Tier.L0, Tier.L1, Tier.L2])
      | exact (by decide :
          List.Sublist [Tier.L0, Tier.L1] [Tier.L0, Tier.L1, Tier.L2])
      | exact (by decide :
          List.Sublist [Tier.L1, Tier.L2] [Tier.L0, Tier.L1, Tier.L2])

theorem queryMemoryTiers_sublist (cfg : ConfigV2) (q : Str) :
    List.Sublist (queryMemoryTiers cfg q) [Tier.L0, Tier.L1, Tier.L2] := by
  unfold queryMemoryTiers
  cases hm : cfg.mode with
  | traditional =>
    exact (by decide : List.Sublist [Tier.L2] [Tier.L0, Tier.L1, Tier.L2])
  | viking =>
    exact (by decide :
      List.Sublist [Tier.L0, Tier.L1] [Tier.L0, Tier.L1, Tier.L2])
  | hybrid => exact getTierStrategy_sublist cfg (classifyV2 q).1 (classifyV2 q).2

/-- Claim C8: for every store state, configuration and query, the estimated
token count of the content retrieved for the selected tier set is at most
the estimated token count of retrieving all three tiers. -/
theorem c8_monotonic_cost (st : StoreV2) (cfg : ConfigV2) (q : Str) :
    respTokens st (queryMemoryTiers cfg q) ≤
      respTokens st [Tier.L0, Tier.L1, Tier.L2] := by
  unfold respTokens
  have h := buildContent_length_mono st (queryMemoryTiers_sublist cfg q)
  have h2 : ((buildContent st (queryMemoryTiers cfg q)).length : ℚ) ≤
      ((buildContent st [Tier.L0, Tier.L1, Tier.L2]).length : ℚ) := by
    exact_mod_cast h
  linarith

theorem mem_of_mem_insertDesc {a f : FileEnt} {l : List FileEnt}
    (h : a ∈ insertDesc f l) : a = f ∨ a ∈ l := by
  induction l with
  | nil => simpa [insertDesc] using h
  | cons g gs ih =>
    unfold insertDesc at h
    split_ifs at h
    · rcases List.mem_cons.mp h with h | h
      · exact Or.inl h
      · exact Or.inr h
    · rcases List.mem_cons.mp h with h | h
      · exact Or.inr (h ▸ List.mem_cons_self g gs)
      · rcases ih h with h | h
        · exact Or.inl h
        · exact Or.inr (List.mem_cons_of_mem g h)

theorem mem_of_mem_sortDesc {a : FileEnt} {l : List FileEnt}
    (h : a ∈ sortByMtimeDesc l) : a ∈ l := by
  induction l with
  | nil => simp [sortByMtimeDesc] at h
  | cons g gs ih =>
    unfold sortByMtimeDesc at h
    rcases mem_of_mem_insertDesc h with h | h
    · exact h ▸ List.mem_cons_self g gs
    · exact List.mem_cons_of_mem g (ih h)

theorem sortDesc_head_of_max {l : List FileEnt} {f : FileEnt}
    (hmem : f ∈ l) (hmax : ∀ g ∈ l, g = f ∨ g.mtime < f.mtime) :
    ∃ t, sortByMtimeDesc l = f :: t := by
  induction l with
  | nil => cases hmem
  | cons g gs ih =>
    by_cases hgf : g = f
    · subst hgf
      cases hs : sortByMtimeDesc gs with
      | nil => exact ⟨[], by simp [sortByMtimeDesc, hs, insertDesc]⟩
      | cons h0 t =>
        have hh0 : h0 ∈ gs :=
          mem_of_mem_sortDesc (hs ▸ List.mem_cons_self h0 t)
        have hle : h0.mtime ≤ g.mtime := by
          rcases hmax h0 (List.mem_cons_of_mem g hh0) with h | h
          · exact h ▸ le_refl _
          · exact le_of_lt h
        exact ⟨h0 :: t, by simp [sortByMtimeDesc, hs, insertDesc, hle]⟩
    · have hfgs : f ∈ gs := by
        rcases List.mem_cons.mp hmem with h | h
        · exact absurd h.symm hgf
        · exact h
      have hmax2 : ∀ x ∈ gs, x = f ∨ x.mtime < f.mtime := fun x hx =>
        hmax x (List.mem_cons_of_mem g hx)
      obtain ⟨t, ht⟩ := ih hfgs hmax2
      have hglt : g.mtime < f.mtime := by
        rcases hmax g (List.mem_cons_self g gs) with h | h
        · exact absurd h hgf
        · exact h
      exact ⟨insertDesc g t,
        by simp [sortByMtimeDesc, ht, insertDesc, not_le.mpr hglt]⟩

/-- Claim C9 as amended: in the v2 bridge, whenever several stored files are
candidates for a tier, `load_tier_content` returns the content of the most
recently modified one (stated for a readable candidate that is strictly the
newest); the v1 bridge instead reads the first file in directory-listing
order. -/
theorem c9_amended (files : List FileEnt) (f : FileEnt) (c : Str)
    (hmem : f ∈ files) (hc : f.content = .ok c)
    (hmax : ∀ g ∈ files, g = f ∨ g.mtime < f.mtime)
    (_htwo : 2 ≤ files.length) :
    loadTierV2 (some files) = .ok c := by
  obtain ⟨t, ht⟩ := sortDesc_head_of_max hmem hmax
  simp [loadTierV2, ht, hc]

/-- Witness for C9 at a two-candidate directory whose newer file (mtime 5)
holds `"new"`. -/
theorem c9_witness :
    ((⟨5, ReadRes.ok (str "new")⟩ : FileEnt) ∈
        [(⟨1, ReadRes.ok (str "old")⟩ : FileEnt), ⟨5, ReadRes.ok (str "new")⟩] ∧
      (⟨5, ReadRes.ok (str "new")⟩ : FileEnt).content = .ok (str "new") ∧
      (∀ g ∈ [(⟨1, ReadRes.ok (str "old")⟩ : FileEnt),
          ⟨5, ReadRes.ok (str "new")⟩],
        g = (⟨5, ReadRes.ok (str "new")⟩ : FileEnt) ∨
          g.mtime < (⟨5, ReadRes.ok (str "new")⟩ : FileEnt).mtime) ∧
      2 ≤ [(⟨1, ReadRes.ok (str "old")⟩ : FileEnt),
        ⟨5, ReadRes.ok (str "new")⟩].length) ∧
    loadTierV2 (some [(⟨1, ReadRes.ok (str "old")⟩ : FileEnt),
      ⟨5, ReadRes.ok (str "new")⟩]) = .ok (str "new") :=
  ⟨⟨by decide, rfl, by decide, by decide⟩,
   c9_amended [(⟨1, ReadRes.ok (str "old")⟩ : FileEnt),
       ⟨5, ReadRes.ok (str "new")⟩]
     (⟨5, ReadRes.ok (str "new")⟩ : FileEnt) (str "new")
     (by decide) rfl (by decide) (by decide)⟩

/-- Claim C9, counterexample: the v1 bridge's `load_tier_content` reads
`files[0]` — here the *older* candidate (mtime 1 versus 5) — so with more
than one candidate it returns `"old"`, not the most recently modified
file's `"new"`. -/
theorem c9_counterexample :
    loadTierV1 (some [(⟨1, ReadRes.ok (str "old")⟩ : FileEnt),
      ⟨5, ReadRes.ok (str "new")⟩]) = some (str "old") ∧
    ((1 : Int) < 5) ∧ str "old" ≠ str "new" :=
  ⟨rfl, by decide, by decide⟩

/-- Claim C10: both `update_stats` variants increment the total-query and
viking-query counters by exactly one on every recorded query — the update
never consults the operating mode, and every query path calls it — so the
difference of the two counters is invariant; the v1 `traditional_queries`
field present in the persisted statistics is left untouched. -/
theorem c10_counters (s : StatsV1) (q : QRec) (s2 : StatsV2) (q2 : QRecV2) :
    (updateStatsV1 s q).total_queries = s.total_queries + 1 ∧
    (updateStatsV1 s q).viking_queries = s.viking_queries + 1 ∧
    (updateStatsV1 s q).traditional_queries = s.traditional_queries ∧
    ((updateStatsV1 s q).total_queries : Int) -
        ((updateStatsV1 s q).viking_queries : Int) =
      (s.total_queries : Int) - (s.viking_queries : Int) ∧
    (updateStatsV2 s2 q2).queries_total = s2.queries_total + 1 ∧
    (updateStatsV2 s2 q2).queries_viking = s2.queries_viking + 1 := by
  refine ⟨rfl, rfl, rfl, ?_, rfl, rfl⟩
  simp only [updateStatsV1]
  omega
